import Mathlib

/-!
Verification development for the contentful-mcp-graphql repository.

The definitions below are a shallow embedding of
`src/handlers/graphql-handlers.ts`.  JavaScript strings are modelled by
Lean `String`, the process-wide cache by an explicit `CacheState` value
threaded through the operations, the remote GraphQL endpoint by an
explicit environment (`Env`, and an execution oracle for `smartSearch`),
and the `JSON.stringify`/`JSON.parse` boundary between the helpers and
the cache loader by structured values (serialising and re-parsing a
schema is the identity, so payloads are kept structured).  JavaScript
truthiness of optional strings (absent, `null` and `""` are falsy) is
modelled by `jsTruthy`.
-/

set_option maxRecDepth 100000

namespace ContentfulGraphQL

/-- JS truthiness for an optional string: `null`/`undefined`/`""` are falsy. -/
def jsTruthy : Option String → Bool
  | none => false
  | some s => s != ""

/-- Model of JS `String.prototype.endsWith`. -/
def endsWithStr (s suf : String) : Bool :=
  suf.data.isSuffixOf s.data

/-- Membership test for a pattern occurring inside a character list. -/
def listContains (pat : List Char) : List Char → Bool
  | [] => pat.isEmpty
  | c :: rest => pat.isPrefixOf (c :: rest) || listContains pat rest

/-- Model of JS `String.prototype.includes`. -/
def containsSub (s sub : String) : Bool :=
  listContains sub.data s.data

/-- Auxiliary for `replaceFirst`: replace the first occurrence of `pat`. -/
def replaceFirstAux (pat repl : List Char) : List Char → List Char
  | [] => if pat.isEmpty then repl else []
  | c :: rest =>
    if pat.isPrefixOf (c :: rest) then repl ++ (c :: rest).drop pat.length
    else c :: replaceFirstAux pat repl rest

/-- Model of JS `String.prototype.replace` with a string pattern:
replaces only the FIRST occurrence of `pat` in `s`. -/
def replaceFirst (s pat repl : String) : String :=
  String.mk (replaceFirstAux pat.data repl.data s.data)

theorem endsWithStr_append_self (s suf : String) :
    endsWithStr (s ++ suf) suf = true := by
  simp [endsWithStr, List.isSuffixOf_iff_suffix]

theorem listContains_append (pat pre suf : List Char) :
    listContains pat (pre ++ pat ++ suf) = true := by
  induction pre with
  | nil =>
    cases pat with
    | nil => cases suf <;> simp [listContains]
    | cons p ps => simp [listContains, List.cons_prefix_cons]
  | cons c pre ih =>
    simp only [List.cons_append, listContains, Bool.or_eq_true]
    exact Or.inr (by simpa [List.append_assoc] using ih)

theorem containsSub_of_append (pre sub suf : String) :
    containsSub (pre ++ sub ++ suf) sub = true := by
  simpa [containsSub] using listContains_append sub.data pre.data suf.data

/-! ## Type classifier (`formatGraphQLType`, `isScalarType`,
`isSearchableTextField`, `isReferenceType`) -/

/-- A GraphQL introspection type descriptor, as received from the API:
an object with optional `kind`, `name`, `ofType`.  The value `null` /
`undefined` is modelled by wrapping in `Option` at use sites. -/
inductive TypeInfo where
  | mk (kind : Option String) (name : Option String) (ofType : Option TypeInfo)

/-- Embeds `formatGraphQLType` from graphql-handlers.ts for a non-null
descriptor; the `null`/`undefined` input case is handled by
`formatGraphQLType` below. -/
def formatTypeInfo : TypeInfo → String
  | .mk kind name ofType =>
    if kind == some "NON_NULL" then
      (match ofType with
       | none => "Unknown"
       | some t => formatTypeInfo t) ++ "!"
    else if kind == some "LIST" then
      "[" ++ (match ofType with
              | none => "Unknown"
              | some t => formatTypeInfo t) ++ "]"
    else if jsTruthy name then
      name.getD ""
    else
      match ofType with
      | some (.mk _ (some n) _) => if n != "" then n else "Unknown"
      | _ => "Unknown"

/-- `formatGraphQLType(typeInfo)`: `none` models a `null`/`undefined`
argument, for which the source returns `"Unknown"` without throwing. -/
def formatGraphQLType : Option TypeInfo → String
  | none => "Unknown"
  | some t => formatTypeInfo t

/-- `isScalarType`: true iff the type string contains one of the fixed
scalar names as a substring. -/
def isScalarType (typeString : String) : Bool :=
  ["String", "Int", "Float", "Boolean", "ID", "DateTime", "JSON"].any
    (fun scalar => containsSub typeString scalar)

/-- `isSearchableTextField`: true iff the type string is exactly `"String"`. -/
def isSearchableTextField (typeString : String) : Bool :=
  typeString == "String"

/-- `isReferenceType`: not scalar and mentions neither Collection nor
Connection. -/
def isReferenceType (typeString : String) : Bool :=
  !isScalarType typeString && !containsSub typeString "Collection" &&
    !containsSub typeString "Connection"

/-! ## Data model -/

/-- A field as stored in a cached content-type schema: the parsed
`{ name, description, type }` object where `type` is the normalized
type string produced by `formatGraphQLType`. -/
structure FieldDescriptor where
  name : String
  description : String
  type : String
deriving DecidableEq, Repr

/-- A cached content-type schema, i.e. the parsed JSON payload of
`loadContentTypeSchemaFromAPI`. -/
structure ContentTypeSchema where
  contentType : String
  description : Option String
  fields : List FieldDescriptor
deriving DecidableEq, Repr

/-- A content-type summary produced by `loadContentTypesFromAPI`. -/
structure ContentTypeSummary where
  name : String
  description : String
  queryName : String
deriving DecidableEq, Repr

/-- A raw field of a `__type` introspection response: name, optional
description, and a (possibly null) type descriptor. -/
structure RawField where
  name : String
  description : Option String
  type : Option TypeInfo

/-- The `type` sub-object of a root query field in the content-type
discovery response. -/
structure RootFieldType where
  kind : Option String
  name : Option String
deriving DecidableEq, Repr

/-- A root query field of the content-type discovery response. -/
structure RootField where
  name : String
  description : Option String
  type : Option RootFieldType
deriving DecidableEq, Repr

/-- Outcome of the remote content-type discovery query
(`loadContentTypesFromAPI`'s fetch). -/
inductive DiscoverResult where
  | httpError (status : Nat) (body : String)
  | gqlErrors (message : String)
  | ok (fields : List RootField)

/-- Outcome of a remote `__type(name: ...)` lookup
(`loadContentTypeSchemaFromAPI`'s fetch): transport/GraphQL error, a
found type (its own name, description and raw fields), or not found
(`__type` returned `null`). -/
inductive TypeFetchResult where
  | httpError (status : Nat) (body : String)
  | gqlErrors (message : String)
  | found (name : String) (description : Option String) (fields : List RawField)
  | notFound

/-- The remote GraphQL endpoint as seen by the loaders: one fixed
discovery response and a per-type-name `__type` response. -/
structure Env where
  discover : DiscoverResult
  typeFetch : String → TypeFetchResult

/-- The filter applied to root query fields by `loadContentTypesFromAPI`:
keep the field iff its name ends with `"Collection"`, or its type is an
`OBJECT` whose name ends with `"Collection"` (optional chaining on
absent `type`/`name` yields false). -/
def rootFieldIsCollectionField (f : RootField) : Bool :=
  endsWithStr f.name "Collection" ||
    (match f.type with
     | some t =>
       t.kind == some "OBJECT" &&
         (match t.name with
          | some n => endsWithStr n "Collection"
          | none => false)
     | none => false)

/-- The per-field mapping of `loadContentTypesFromAPI`: note that
`field.name.replace("Collection", "")` replaces only the FIRST
occurrence of `"Collection"`. -/
def rootFieldToSummary (f : RootField) : ContentTypeSummary :=
  { name := replaceFirst f.name "Collection" ""
    description :=
      match f.description with
      | some d => if d != "" then d else "Content type for " ++ f.name
      | none => "Content type for " ++ f.name
    queryName := f.name }

/-- Embeds `loadContentTypesFromAPI`: on transport or GraphQL errors an
`isError` response with the corresponding text, otherwise the filtered
and mapped content-type summaries (the JSON payload is kept structured). -/
def loadContentTypesFromAPI (env : Env) : Except String (List ContentTypeSummary) :=
  match env.discover with
  | .httpError status body => .error ("HTTP Error " ++ toString status ++ ": " ++ body)
  | .gqlErrors message => .error message
  | .ok fields => .ok ((fields.filter rootFieldIsCollectionField).map rootFieldToSummary)

/-- The per-field mapping of `loadContentTypeSchemaFromAPI`. -/
def rawFieldToDescriptor (f : RawField) : FieldDescriptor :=
  { name := f.name
    description :=
      match f.description with
      | some d => if d != "" then d else "Field " ++ f.name
      | none => "Field " ++ f.name
    type := formatGraphQLType f.type }

/-- Embeds `loadContentTypeSchemaFromAPI`: fetch `__type(name:
contentType)`; when the type is not found and the name does not already
end with `"Collection"`, retry once with the suffix appended; a
not-found after that is an error naming the (suffixed) type. -/
def loadContentTypeSchemaFromAPI (env : Env) (contentType : String) :
    Except String ContentTypeSchema :=
  match env.typeFetch contentType with
  | .httpError status body => .error ("HTTP Error " ++ toString status ++ ": " ++ body)
  | .gqlErrors message => .error message
  | .found nm desc fs => .ok ⟨nm, desc, fs.map rawFieldToDescriptor⟩
  | .notFound =>
    if _h : endsWithStr contentType "Collection" = true then
      .error ("Content type \"" ++ contentType ++ "\" not found in the schema.")
    else
      loadContentTypeSchemaFromAPI env (contentType ++ "Collection")
termination_by (if endsWithStr contentType "Collection" = true then 0 else 1)
decreasing_by
  simp only [endsWithStr_append_self, _h]
  simp

/-! ## Metadata cache -/

/-- The process-wide cache state: `contentTypesCache`,
`contentTypeSchemasCache` (a JS `Map`, modelled as an insertion-ordered
association list with unique keys) and `lastCacheUpdate` (only its
presence matters here). -/
structure CacheState where
  contentTypes : Option (List ContentTypeSummary)
  schemas : List (String × ContentTypeSchema)
  lastUpdate : Option Unit
deriving DecidableEq

/-- The cache at process start: both stores empty, no update timestamp. -/
def initialCacheState : CacheState := ⟨none, [], none⟩

/-- Embeds `clearCache`: resets all three fields. -/
def clearCache (_s : CacheState) : CacheState := initialCacheState

/-- Embeds `getCachedContentTypeSchema`: `Map.get(contentType) || null`. -/
def getCachedContentTypeSchema (s : CacheState) (contentType : String) :
    Option ContentTypeSchema :=
  (s.schemas.find? (fun p => p.1 == contentType)).map Prod.snd

/-- Embeds `isCacheAvailable`:
`contentTypesCache !== null && contentTypeSchemasCache.size > 0`. -/
def isCacheAvailable (s : CacheState) : Bool :=
  s.contentTypes.isSome && !s.schemas.isEmpty

/-- Snapshot returned by `getCacheStatus`. -/
structure CacheStatus where
  available : Bool
  contentTypesCount : Nat
  schemasCount : Nat
  lastUpdate : Option Unit
deriving DecidableEq

/-- Embeds `getCacheStatus`. -/
def getCacheStatus (s : CacheState) : CacheStatus :=
  { available := isCacheAvailable s
    contentTypesCount :=
      match s.contentTypes with
      | some l => l.length
      | none => 0
    schemasCount := s.schemas.length
    lastUpdate := s.lastUpdate }

/-- JS `Map.set`: replace the value in place when the key is present
(preserving insertion order), otherwise append a new entry. -/
def insertReplace (m : List (String × ContentTypeSchema)) (k : String)
    (v : ContentTypeSchema) : List (String × ContentTypeSchema) :=
  match m with
  | [] => [(k, v)]
  | p :: rest => if p.1 = k then (k, v) :: rest else p :: insertReplace rest k v

/-- Embeds `loadContentfulMetadata`: discover content types (on failure
log and return without touching state), store the list, then fetch each
type's schema (the concurrent fan-out is deterministic per name, so it
is modelled by a fold in list order) inserting each success keyed by the
schema's own `contentType`; failures are skipped.  Finally set
`lastUpdate`.  Note the schemas map is NOT cleared first.
`loadFold` is the per-type fan-out, and `loadContentfulMetadata` the
whole pass. -/
def loadFold (env : Env) (cts : List ContentTypeSummary)
    (m : List (String × ContentTypeSchema)) : List (String × ContentTypeSchema) :=
  cts.foldl
    (fun m ct =>
      match loadContentTypeSchemaFromAPI env ct.name with
      | .ok sch => insertReplace m sch.contentType sch
      | .error _ => m)
    m

/-- See `loadFold`. -/
def loadContentfulMetadata (env : Env) (s : CacheState) : CacheState :=
  match loadContentTypesFromAPI env with
  | .error _ => s
  | .ok cts =>
    { contentTypes := some cts, schemas := loadFold env cts s.schemas,
      lastUpdate := some () }

/-- States reachable from process start by any sequence of cache loads
(each against an arbitrary remote environment) and clears. -/
inductive Reachable : CacheState → Prop where
  | init : Reachable initialCacheState
  | clear {s : CacheState} : Reachable s → Reachable (clearCache s)
  | load (env : Env) {s : CacheState} :
      Reachable s → Reachable (loadContentfulMetadata env s)

/-! ## Tool handlers

Literal braces inside generated GraphQL text are written with the
escapes `\x7b` (`{`) and `\x7d` (`}`). -/

/-- Embeds `graphqlHandlers.getContentTypeSchema`'s fallback path:
configuration checks, then the API loader.  `spaceId` and `accessToken`
are the already-resolved configuration values (argument override or
environment variable); the `Bool` in the result is the `cached` marker. -/
def getContentTypeSchemaFallback (env : Env) (spaceId accessToken : Option String)
    (contentType : String) : Except String (ContentTypeSchema × Bool) :=
  if jsTruthy spaceId = false then
    .error "Space ID is required (set SPACE_ID environment variable or provide spaceId parameter)"
  else if jsTruthy accessToken = false then
    .error "Content Delivery API (CDA) token is required for GraphQL queries (set CONTENTFUL_DELIVERY_ACCESS_TOKEN environment variable)"
  else
    (loadContentTypeSchemaFromAPI env contentType).map (fun s => (s, false))

/-- Embeds `graphqlHandlers.getContentTypeSchema`: cache-first lookup
(direct, then with the `Collection` suffix when the name does not end in
it), then fallback to the API loader. -/
def getContentTypeSchemaHandler (cache : CacheState) (env : Env)
    (spaceId accessToken : Option String) (contentType : String) :
    Except String (ContentTypeSchema × Bool) :=
  if isCacheAvailable cache then
    match getCachedContentTypeSchema cache contentType with
    | some s => .ok (s, true)
    | none =>
      if endsWithStr contentType "Collection" = false then
        match getCachedContentTypeSchema cache (contentType ++ "Collection") with
        | some s => .ok (s, true)
        | none => getContentTypeSchemaFallback env spaceId accessToken contentType
      else getContentTypeSchemaFallback env spaceId accessToken contentType
  else getContentTypeSchemaFallback env spaceId accessToken contentType

/-- Arguments of the `smartSearch` tool. -/
structure SmartSearchArgs where
  query : String
  contentTypes : Option (List String)
  limit : Option Nat

/-- An item of a remote search response, as extracted by `smartSearch`
from the executed query's JSON: `sys.id` plus the returned field
values. -/
structure SearchItem where
  id : String
  fields : List (String × String)
deriving DecidableEq, Repr

/-- An output item of a `SearchResult` entry (`sys.id` plus each
searched field's, possibly absent, value). -/
structure SearchItemOut where
  id : String
  fields : List (String × Option String)
deriving DecidableEq, Repr

/-- One entry of `smartSearch`'s `results` array. -/
structure SearchResultEntry where
  contentType : String
  items : List SearchItemOut
deriving DecidableEq, Repr

/-- The response of the `smartSearch` tool: an `isError` text, or the
structured success payload. -/
inductive SmartSearchResult where
  | err (text : String)
  | ok (query : String) (results : List SearchResultEntry)
      (totalContentTypesSearched : Nat) (contentTypesWithResults : Nat)
deriving DecidableEq

/-- The query text `smartSearch` builds for one content type
(template literal of the source, indentation included). -/
def smartQueryText (ctName queryName conds : String) (limit : Nat)
    (fieldNames : List String) : String :=
  "\n            query SearchIn" ++ ctName ++ "($searchTerm: String!) \x7b\n              " ++
    queryName ++ "(where: \x7b OR: [" ++ conds ++ "] \x7d, limit: " ++ toString limit ++
    ") \x7b\n                items \x7b\n                  sys \x7b id \x7d\n                  " ++
    String.intercalate "\n                  " fieldNames ++
    "\n                \x7d\n              \x7d\n            \x7d\n          "

/-- The per-content-type step of `smartSearch`.  The remote execution
path (`graphqlHandlers.executeQuery`) is abstracted by the oracle
`exec`, mapping the query text to `none` (an `isError` response) or
`some items` (the parsed `data.data?.[queryName]?.items || []`).  The
second component is the list of queries actually sent over the network
by this step. -/
def smartSearchOne (cache : CacheState) (exec : String → Option (List SearchItem))
    (limit : Nat) (ct : ContentTypeSummary) :
    Option SearchResultEntry × List String :=
  match getCachedContentTypeSchema cache ct.name with
  | none => (none, [])
  | some schema =>
    let textFields := schema.fields.filter (fun f => isSearchableTextField f.type)
    if textFields.isEmpty then (none, [])
    else
      let conds := String.intercalate ", "
        (textFields.map (fun f => "\x7b " ++ f.name ++ "_contains: $searchTerm \x7d"))
      let query := smartQueryText ct.name ct.queryName conds limit
        (textFields.map (fun f => f.name))
      match exec query with
      | none => (none, [query])
      | some items =>
        if items.isEmpty then (none, [query])
        else
          (some
            { contentType := ct.name
              items := items.map (fun it =>
                { id := it.id
                  fields := textFields.map (fun f =>
                    (f.name, (it.fields.find? (fun p => p.1 == f.name)).map Prod.snd)) }) },
           [query])

/-- Embeds `graphqlHandlers.smartSearch`.  Returns the tool response
together with the list of all queries sent to the remote execution
path. -/
def smartSearch (cache : CacheState) (exec : String → Option (List SearchItem))
    (spaceId accessToken : Option String) (args : SmartSearchArgs) :
    SmartSearchResult × List String :=
  if isCacheAvailable cache = false then
    (.err "Smart search requires cached metadata. Please wait for the cache to load or use individual GraphQL queries.",
     [])
  else
    let limit :=
      match args.limit with
      | some n => if n = 0 then 5 else n
      | none => 5
    if jsTruthy spaceId = false || jsTruthy accessToken = false then
      (.err "Space ID and CDA token are required for smart search", [])
    else
      match cache.contentTypes with
      | none => (.err "No content types available in cache", [])
      | some cts =>
        let targets :=
          match args.contentTypes with
          | some allow => cts.filter (fun (ct : ContentTypeSummary) => allow.contains ct.name)
          | none => cts
        let perType := targets.map (smartSearchOne cache exec limit)
        let validResults := (perType.map Prod.fst).reduceOption
        (.ok args.query validResults targets.length validResults.length,
         (perType.map Prod.snd).flatten)

/-- Arguments of the `buildSearchQuery` tool. -/
structure BuildSearchQueryArgs where
  contentType : String
  searchTerm : String
  fields : Option (List String)

/-- The response of the `buildSearchQuery` tool: an `isError` text or
the generated query document. -/
inductive BuildResult where
  | err (text : String)
  | ok (query : String)
deriving DecidableEq

/-- `buildSearchQuery`'s root-query-field resolution: the `queryName` of
the cached summary matched by name or queryName, with a fallback derived
from the schema's type name (JS `||` treats an empty `queryName` as
absent). -/
def resolveQueryName (cache : CacheState) (argsContentType contentTypeName : String) :
    String :=
  let contentTypeInfo :=
    match cache.contentTypes with
    | some l => l.find? (fun (ct : ContentTypeSummary) =>
        ct.name == argsContentType || ct.name == contentTypeName ||
          ct.queryName == contentTypeName)
    | none => none
  let fallback :=
    if endsWithStr contentTypeName "Collection" then contentTypeName
    else contentTypeName ++ "Collection"
  match contentTypeInfo with
  | some info => if info.queryName != "" then info.queryName else fallback
  | none => fallback

/-- The document text `buildSearchQuery` generates (template literal of
the source). -/
def buildQueryText (opName queryName conds : String) (scalarFields : List String) :
    String :=
  "query Search" ++ opName ++ "($searchTerm: String!) \x7b\n  " ++ queryName ++
    "(where: \x7b OR: [" ++ conds ++ "] \x7d, limit: 10) \x7b\n    items \x7b\n      sys \x7b id \x7d\n" ++
    String.intercalate "\n" (scalarFields.map (fun f => "      " ++ f)) ++
    "\n    \x7d\n  \x7d\n\x7d"

/-- The part of `buildSearchQuery` after the schema has been resolved
from the cache. -/
def buildSearchQueryCore (cache : CacheState) (args : BuildSearchQueryArgs)
    (actualSchema : ContentTypeSchema) : BuildResult :=
  let contentTypeName := actualSchema.contentType
  let queryName := resolveQueryName cache args.contentType contentTypeName
  let searchable := actualSchema.fields.filter (fun f => isSearchableTextField f.type)
  let fieldsToSearch :=
    match args.fields with
    | some fs =>
      if fs.isEmpty then searchable
      else searchable.filter (fun f => fs.contains f.name)
    | none => searchable
  if fieldsToSearch.isEmpty then
    .err ("No searchable text fields found for content type \"" ++ args.contentType ++
      "\". Available fields: " ++
      String.intercalate ", " (actualSchema.fields.map (fun f => f.name)))
  else
    let conds := String.intercalate ", "
      (fieldsToSearch.map (fun f => "\x7b " ++ f.name ++ "_contains: $searchTerm \x7d"))
    let scalarFields := (actualSchema.fields.filter (fun f => isScalarType f.type)).map
      (fun f => f.name)
    .ok (buildQueryText (replaceFirst contentTypeName "Collection" "") queryName conds
      scalarFields)

/-- Embeds `graphqlHandlers.buildSearchQuery`: cache-availability check,
schema resolution (direct key, then with the `Collection` suffix), then
the query synthesis.  The handler performs no network call on any path. -/
def buildSearchQuery (cache : CacheState) (args : BuildSearchQueryArgs) : BuildResult :=
  if isCacheAvailable cache = false then
    .err "Query builder requires cached metadata. Please wait for the cache to load."
  else
    match getCachedContentTypeSchema cache args.contentType,
      getCachedContentTypeSchema cache (args.contentType ++ "Collection") with
    | none, none =>
      .err ("Content type \"" ++ args.contentType ++
        "\" not found in cache. Use graphql_list_content_types to see available content types.")
    | some s, _ => buildSearchQueryCore cache args s
    | none, some s => buildSearchQueryCore cache args s

/-! ## Shared lemmas -/

/-- Unrolled characterization of `loadContentTypeSchemaFromAPI`: the
recursion retries at most once, with the `Collection` suffix appended. -/
theorem loadSchemaAPI_eval (env : Env) (name : String) :
    loadContentTypeSchemaFromAPI env name =
      match env.typeFetch name with
      | .httpError status body => .error ("HTTP Error " ++ toString status ++ ": " ++ body)
      | .gqlErrors message => .error message
      | .found nm desc fs => .ok ⟨nm, desc, fs.map rawFieldToDescriptor⟩
      | .notFound =>
        if endsWithStr name "Collection" = true then
          .error ("Content type \"" ++ name ++ "\" not found in the schema.")
        else
          match env.typeFetch (name ++ "Collection") with
          | .httpError status body =>
            .error ("HTTP Error " ++ toString status ++ ": " ++ body)
          | .gqlErrors message => .error message
          | .found nm desc fs => .ok ⟨nm, desc, fs.map rawFieldToDescriptor⟩
          | .notFound =>
            .error ("Content type \"" ++ (name ++ "Collection") ++
              "\" not found in the schema.") := by
  rw [loadContentTypeSchemaFromAPI]
  cases h : env.typeFetch name with
  | httpError status body => rfl
  | gqlErrors message => rfl
  | found nm desc fs => rfl
  | notFound =>
    by_cases hc : endsWithStr name "Collection" = true
    · simp [hc]
    · simp only [hc, dite_false, if_neg hc]
      rw [loadContentTypeSchemaFromAPI]
      cases h2 : env.typeFetch (name ++ "Collection") with
      | httpError status body => rfl
      | gqlErrors message => rfl
      | found nm desc fs => rfl
      | notFound => simp [endsWithStr_append_self]

/-! ## Claim theorems -/

/-- C8: for every introspection type descriptor (including `null`,
`undefined` — modelled by `none` — and the empty object),
`formatGraphQLType` returns a string (it is a total Lean function, so it
cannot throw); it returns `"Unknown"` for `null`, `undefined` and `{}`;
for kind `NON_NULL` it is the normalization of `ofType` with `"!"`
appended; for kind `LIST` it is the normalization of `ofType` wrapped in
`"["`/`"]"`; otherwise it returns `name` if present, else `ofType.name`
if present, else `"Unknown"` — where "present" follows the source's JS
truthiness test, so an empty-string name counts as absent. -/
theorem formatGraphQLType_normalization :
    formatGraphQLType none = "Unknown" ∧
    formatGraphQLType (some (.mk none none none)) = "Unknown" ∧
    (∀ (name : Option String) (ofType : Option TypeInfo),
      formatGraphQLType (some (.mk (some "NON_NULL") name ofType)) =
        formatGraphQLType ofType ++ "!") ∧
    (∀ (name : Option String) (ofType : Option TypeInfo),
      formatGraphQLType (some (.mk (some "LIST") name ofType)) =
        "[" ++ formatGraphQLType ofType ++ "]") ∧
    (∀ (kind : Option String) (n : String) (ofType : Option TypeInfo),
      kind ≠ some "NON_NULL" → kind ≠ some "LIST" → n ≠ "" →
      formatGraphQLType (some (.mk kind (some n) ofType)) = n) ∧
    (∀ (kind name k2 : Option String) (m : String) (o2 : Option TypeInfo),
      kind ≠ some "NON_NULL" → kind ≠ some "LIST" → jsTruthy name = false → m ≠ "" →
      formatGraphQLType (some (.mk kind name (some (.mk k2 (some m) o2)))) = m) ∧
    (∀ (kind name : Option String),
      kind ≠ some "NON_NULL" → kind ≠ some "LIST" → jsTruthy name = false →
      formatGraphQLType (some (.mk kind name none)) = "Unknown") ∧
    (∀ (kind name k2 : Option String) (o2 : Option TypeInfo),
      kind ≠ some "NON_NULL" → kind ≠ some "LIST" → jsTruthy name = false →
      formatGraphQLType (some (.mk kind name (some (.mk k2 none o2)))) = "Unknown") ∧
    (∀ (kind name k2 : Option String) (o2 : Option TypeInfo),
      kind ≠ some "NON_NULL" → kind ≠ some "LIST" → jsTruthy name = false →
      formatGraphQLType (some (.mk kind name (some (.mk k2 (some "") o2)))) =
        "Unknown") := by
  refine ⟨rfl, rfl, ?_, ?_, ?_, ?_, ?_, ?_, ?_⟩
  · intro name ofType
    cases ofType <;> simp [formatGraphQLType, formatTypeInfo]
  · intro name ofType
    cases ofType <;> simp [formatGraphQLType, formatTypeInfo]
  · intro kind n ofType h1 h2 h3
    simp only [formatGraphQLType]
    unfold formatTypeInfo
    simp [jsTruthy, beq_iff_eq, bne_iff_ne, h1, h2, h3]
  · intro kind name k2 m o2 h1 h2 h3 h4
    simp only [formatGraphQLType]
    unfold formatTypeInfo
    simp [beq_iff_eq, bne_iff_ne, h1, h2, h3, h4]
  · intro kind name h1 h2 h3
    simp only [formatGraphQLType]
    unfold formatTypeInfo
    simp [beq_iff_eq, bne_iff_ne, h1, h2, h3]
  · intro kind name k2 o2 h1 h2 h3
    simp only [formatGraphQLType]
    unfold formatTypeInfo
    simp [beq_iff_eq, bne_iff_ne, h1, h2, h3]
  · intro kind name k2 o2 h1 h2 h3
    simp only [formatGraphQLType]
    unfold formatTypeInfo
    simp [beq_iff_eq, bne_iff_ne, h1, h2, h3]

/-- Witness for C8: the hypotheses of the conditional conjuncts are
satisfiable; instantiation of the bare-name branch at a `SCALAR`
descriptor. -/
theorem formatGraphQLType_normalization_witness :
    (some "SCALAR" ≠ (some "NON_NULL" : Option String)) ∧
    (some "SCALAR" ≠ (some "LIST" : Option String)) ∧
    ("String" ≠ "") ∧
    formatGraphQLType (some (.mk (some "SCALAR") (some "String") none)) = "String" :=
  ⟨by decide, by decide, by decide,
    formatGraphQLType_normalization.2.2.2.2.1 (some "SCALAR") "String" none
      (by decide) (by decide) (by decide)⟩

/-- C4: whenever the cache is unavailable, both `smartSearch` and
`buildSearchQuery` return an `isError` response whose text mentions
"requires cached metadata", and neither performs any network call before
returning it: `smartSearch`'s call log is empty, and `buildSearchQuery`
is embedded without any network oracle because its source path performs
no fetch at all. -/
theorem cache_unavailable_errors (cache : CacheState)
    (h : isCacheAvailable cache = false)
    (exec : String → Option (List SearchItem)) (spaceId accessToken : Option String)
    (ssArgs : SmartSearchArgs) (bArgs : BuildSearchQueryArgs) :
    smartSearch cache exec spaceId accessToken ssArgs =
      (.err "Smart search requires cached metadata. Please wait for the cache to load or use individual GraphQL queries.",
       []) ∧
    buildSearchQuery cache bArgs =
      .err "Query builder requires cached metadata. Please wait for the cache to load." ∧
    containsSub
      "Smart search requires cached metadata. Please wait for the cache to load or use individual GraphQL queries."
      "requires cached metadata" = true ∧
    containsSub "Query builder requires cached metadata. Please wait for the cache to load."
      "requires cached metadata" = true := by
  refine ⟨?_, ?_, by rfl, by rfl⟩
  · simp [smartSearch, h]
  · simp [buildSearchQuery, h]

/-- Witness for C4: the empty initial cache is unavailable, and both
handlers report the cache-unavailable error on it. -/
theorem cache_unavailable_errors_witness :
    isCacheAvailable initialCacheState = false ∧
    smartSearch initialCacheState (fun _ => none) none none ⟨"q", none, none⟩ =
      (.err "Smart search requires cached metadata. Please wait for the cache to load or use individual GraphQL queries.",
       []) ∧
    buildSearchQuery initialCacheState ⟨"ct", "term", none⟩ =
      .err "Query builder requires cached metadata. Please wait for the cache to load." :=
  ⟨rfl,
    (cache_unavailable_errors initialCacheState rfl (fun _ => none) none none
      ⟨"q", none, none⟩ ⟨"ct", "term", none⟩).1,
    (cache_unavailable_errors initialCacheState rfl (fun _ => none) none none
      ⟨"q", none, none⟩ ⟨"ct", "term", none⟩).2.1⟩

/-- C5: when the remote `__type` lookup reports a name (not already
ending in `"Collection"`) as not found, the schema fetch retries exactly
once with `"Collection"` appended — the result equals the result for the
suffixed name, and for an already-suffixed name a not-found is
surfaced immediately, so no second retry happens; in particular
`getContentTypeSchema({contentType:"Article"})` (here with an empty
cache, so the API path is taken) when only `ArticleCollection` exists in
the introspected schema returns a schema object whose `contentType`
equals `"ArticleCollection"`. -/
theorem collection_suffix_retry :
    (∀ (env : Env) (name : String),
      endsWithStr name "Collection" = false →
      env.typeFetch name = .notFound →
      loadContentTypeSchemaFromAPI env name =
        loadContentTypeSchemaFromAPI env (name ++ "Collection")) ∧
    (∀ (env : Env) (name : String),
      endsWithStr name "Collection" = true →
      env.typeFetch name = .notFound →
      loadContentTypeSchemaFromAPI env name =
        .error ("Content type \"" ++ name ++ "\" not found in the schema.")) ∧
    (∀ (d : Option String) (fs : List RawField) (spaceId accessToken : Option String),
      jsTruthy spaceId = true → jsTruthy accessToken = true →
      getContentTypeSchemaHandler initialCacheState
        ⟨.ok [], fun n => if n = "ArticleCollection" then .found "ArticleCollection" d fs
          else .notFound⟩
        spaceId accessToken "Article" =
        .ok (⟨"ArticleCollection", d, fs.map rawFieldToDescriptor⟩, false)) := by
  refine ⟨?_, ?_, ?_⟩
  · intro env name hends hnf
    rw [loadContentTypeSchemaFromAPI]
    simp [hnf, hends]
  · intro env name hends hnf
    rw [loadContentTypeSchemaFromAPI]
    simp [hnf, hends]
  · intro d fs spaceId accessToken hsp htok
    have hload :
        loadContentTypeSchemaFromAPI
          ⟨.ok [], fun n => if n = "ArticleCollection" then .found "ArticleCollection" d fs
            else .notFound⟩ "Article" =
          .ok ⟨"ArticleCollection", d, fs.map rawFieldToDescriptor⟩ := by
      rw [loadSchemaAPI_eval]
      simp [show endsWithStr "Article" "Collection" = false from rfl]
    simp [getContentTypeSchemaHandler, getContentTypeSchemaFallback, isCacheAvailable,
      initialCacheState, Except.map, hsp, htok, hload]

/-- Witness for C5: concrete instantiations of all three conjuncts; the
remote schema contains only `ArticleCollection`, and the handler returns
it for the bare name `"Article"`. -/
theorem collection_suffix_retry_witness :
    (endsWithStr "Article" "Collection" = false) ∧
    (endsWithStr "ArticleCollection" "Collection" = true) ∧
    (jsTruthy (some "space") = true) ∧
    loadContentTypeSchemaFromAPI ⟨.ok [], fun _ => .notFound⟩ "Article" =
      loadContentTypeSchemaFromAPI ⟨.ok [], fun _ => .notFound⟩ ("Article" ++ "Collection") ∧
    loadContentTypeSchemaFromAPI ⟨.ok [], fun _ => .notFound⟩ "ArticleCollection" =
      .error ("Content type \"" ++ "ArticleCollection" ++ "\" not found in the schema.") ∧
    getContentTypeSchemaHandler initialCacheState
      ⟨.ok [], fun n => if n = "ArticleCollection" then .found "ArticleCollection" none []
        else .notFound⟩
      (some "space") (some "token") "Article" =
      .ok (⟨"ArticleCollection", none, ([] : List RawField).map rawFieldToDescriptor⟩,
        false) :=
  ⟨rfl, rfl, rfl,
    collection_suffix_retry.1 ⟨.ok [], fun _ => .notFound⟩ "Article" rfl rfl,
    collection_suffix_retry.2.1 ⟨.ok [], fun _ => .notFound⟩ "ArticleCollection" rfl rfl,
    collection_suffix_retry.2.2 none [] (some "space") (some "token") rfl rfl⟩

/-- C6 counterexample: with a remote schema in which neither `"Article"`
nor `"ArticleCollection"` exists, the not-found error text quotes only
the Collection-suffixed name; the original name `"Article"` never occurs
as a separately quoted name (only as a prefix inside
`"ArticleCollection"`), so the error does not name both names tried, as
the claim requires. -/
theorem notFound_error_names_only_suffixed :
    loadContentTypeSchemaFromAPI ⟨.ok [], fun _ => .notFound⟩ "Article" =
      .error "Content type \"ArticleCollection\" not found in the schema." ∧
    containsSub "Content type \"ArticleCollection\" not found in the schema."
      "\"ArticleCollection\"" = true ∧
    containsSub "Content type \"ArticleCollection\" not found in the schema."
      "\"Article\"" = false := by
  refine ⟨?_, rfl, rfl⟩
  rw [loadSchemaAPI_eval]
  simp [show endsWithStr "Article" "Collection" = false from rfl]

/-- C6 amended: when both the direct lookup and the Collection-suffixed
retry report not found, the resulting error names ONLY the
Collection-suffixed name that was tried (the original name appears in it
only as a prefix of the suffixed name, not as a separately quoted name). -/
theorem notFound_error_text (env : Env) (name : String)
    (hends : endsWithStr name "Collection" = false)
    (h1 : env.typeFetch name = .notFound)
    (h2 : env.typeFetch (name ++ "Collection") = .notFound) :
    loadContentTypeSchemaFromAPI env name =
      .error ("Content type \"" ++ (name ++ "Collection") ++
        "\" not found in the schema.") ∧
    containsSub
      ("Content type \"" ++ (name ++ "Collection") ++ "\" not found in the schema.")
      (name ++ "Collection") = true := by
  constructor
  · rw [loadSchemaAPI_eval]
    simp [h1, h2, hends]
  · exact containsSub_of_append "Content type \"" (name ++ "Collection")
      "\" not found in the schema."


/-- Witness for C6's amended theorem: concrete instantiation at
`"Article"` with an empty remote schema. -/
theorem notFound_error_text_witness :
    (endsWithStr "Article" "Collection" = false) ∧
    loadContentTypeSchemaFromAPI ⟨.gqlErrors "e", fun _ => .notFound⟩ "Article" =
      .error ("Content type \"" ++ ("Article" ++ "Collection") ++
        "\" not found in the schema.") :=
  ⟨rfl,
    (notFound_error_text ⟨.gqlErrors "e", fun _ => .notFound⟩ "Article" rfl rfl rfl).1⟩

/-- Modelled from the spec claim's words, for comparison with the
source's mapping: remove a trailing `"Collection"` suffix from a name
(and only a trailing one). -/
def specStripTrailingCollection (s : String) : String :=
  if endsWithStr s "Collection" then
    String.mk (s.data.take (s.data.length - "Collection".data.length))
  else s

/-- C7 counterexample: for the root query field named
`"pageCollectionDataCollection"` (in which `"Collection"` also occurs
before the end), discovery produces the summary name
`"pageDataCollection"` — the FIRST occurrence of `"Collection"` is
removed — whereas the claim requires the trailing suffix to be stripped,
which would give `"pageCollectionData"`. -/
theorem discovery_strips_first_occurrence :
    loadContentTypesFromAPI
      ⟨.ok [⟨"pageCollectionDataCollection", none, none⟩], fun _ => .notFound⟩ =
      .ok [⟨"pageDataCollection", "Content type for pageCollectionDataCollection",
        "pageCollectionDataCollection"⟩] ∧
    specStripTrailingCollection "pageCollectionDataCollection" = "pageCollectionData" ∧
    ("pageDataCollection" : String) ≠ "pageCollectionData" :=
  ⟨rfl, rfl, by decide⟩

/-- C7 amended: a root query field is included as a content type iff its
name ends with `"Collection"` or its resolved object type name ends with
`"Collection"`; the resulting summary has `queryName` equal to the field
name and `name` equal to the field name with the FIRST occurrence of the
substring `"Collection"` removed (this equals stripping the trailing
suffix only when `"Collection"` first occurs at the end of the name). -/
theorem discovery_filter_and_mapping (env : Env) (fields : List RootField)
    (h : env.discover = .ok fields) :
    loadContentTypesFromAPI env =
      .ok ((fields.filter rootFieldIsCollectionField).map rootFieldToSummary) ∧
    (∀ f : RootField, rootFieldIsCollectionField f = true ↔
      (endsWithStr f.name "Collection" = true ∨
        (∃ t, f.type = some t ∧ t.kind = some "OBJECT" ∧
          ∃ n, t.name = some n ∧ endsWithStr n "Collection" = true))) ∧
    (∀ f : RootField, (rootFieldToSummary f).queryName = f.name ∧
      (rootFieldToSummary f).name = replaceFirst f.name "Collection" "") := by
  refine ⟨by simp [loadContentTypesFromAPI, h], ?_, fun f => ⟨rfl, rfl⟩⟩
  intro f
  obtain ⟨nm, d, ty⟩ := f
  cases ty with
  | none => simp [rootFieldIsCollectionField]
  | some t =>
    obtain ⟨k, n⟩ := t
    cases n with
    | none => simp [rootFieldIsCollectionField]
    | some nn => simp [rootFieldIsCollectionField, beq_iff_eq, and_comm]

/-- Witness for C7's amended theorem: discovery on a concrete
environment with one matching and one non-matching root field. -/
theorem discovery_filter_and_mapping_witness :
    loadContentTypesFromAPI
      ⟨.ok [⟨"articleCollection", none, none⟩, ⟨"plainField", none, none⟩],
        fun _ => .notFound⟩ =
      .ok (([⟨"articleCollection", none, none⟩,
        (⟨"plainField", none, none⟩ : RootField)].filter
          rootFieldIsCollectionField).map rootFieldToSummary) :=
  (discovery_filter_and_mapping
    ⟨.ok [⟨"articleCollection", none, none⟩, ⟨"plainField", none, none⟩],
      fun _ => .notFound⟩
    [⟨"articleCollection", none, none⟩, ⟨"plainField", none, none⟩] rfl).1

/-- The `pageArticle` schema of the spec's S8 scenario: fields
`title:String, slug:String, body:String, author:String, tags:[String]`. -/
def pageArticleSchema : ContentTypeSchema :=
  ⟨"PageArticle", none,
   [⟨"title", "Field title", "String"⟩, ⟨"slug", "Field slug", "String"⟩,
    ⟨"body", "Field body", "String"⟩, ⟨"author", "Field author", "String"⟩,
    ⟨"tags", "Field tags", "[String]"⟩]⟩

/-- The `topicCategory` schema of the spec's S8 scenario. -/
def topicCategorySchema : ContentTypeSchema :=
  ⟨"TopicCategory", none,
   [⟨"name", "Field name", "String"⟩, ⟨"description", "Field description", "String"⟩]⟩

/-- The cache of the spec's S8 scenario: two content types with their
schemas keyed by the summary names. -/
def scenarioCache : CacheState :=
  ⟨some [⟨"pageArticle", "Content type for pageArticleCollection", "pageArticleCollection"⟩,
         ⟨"topicCategory", "Content type for topicCategoryCollection",
           "topicCategoryCollection"⟩],
   [("pageArticle", pageArticleSchema), ("topicCategory", topicCategorySchema)],
   some ()⟩

/-- The document `buildSearchQuery` produces in the S8 scenario. -/
def scenarioDoc : String :=
  "query SearchPageArticle($searchTerm: String!) \x7b\n  pageArticleCollection(where: \x7b OR: [\x7b title_contains: $searchTerm \x7d, \x7b slug_contains: $searchTerm \x7d, \x7b body_contains: $searchTerm \x7d, \x7b author_contains: $searchTerm \x7d] \x7d, limit: 10) \x7b\n    items \x7b\n      sys \x7b id \x7d\n      title\n      slug\n      body\n      author\n      tags\n    \x7d\n  \x7d\n\x7d"

/-- C1 counterexample: in the S8 scenario,
`buildSearchQuery({contentType:"pageArticle", searchTerm:"hello world"})`
returns a document that DOES contain an `author_contains` condition —
`author` has the bare type `"String"`, so the source classifies it as
searchable text — contradicting the claim that the document contains
neither `author_contains` nor `tags_contains`. -/
theorem buildSearchQuery_author_contains_included :
    buildSearchQuery scenarioCache ⟨"pageArticle", "hello world", none⟩ =
      .ok scenarioDoc ∧
    containsSub scenarioDoc "author_contains" = true :=
  ⟨rfl, rfl⟩

/-- C1 amended: for every cached content-type schema resolvable under
the requested name, `buildSearchQuery` (without a field allow-list, and
with at least one searchable field) returns the query document whose
operation name is `"Search"` followed by the schema's `contentType` with
the FIRST occurrence of `"Collection"` removed (equal to stripping the
`Collection` suffix whenever `"Collection"` occurs only as a trailing
suffix), taking a `$searchTerm: String!` variable, whose `where` clause
is an `OR` list with exactly one `field_contains: $searchTerm` condition
per field classified as searchable text (exactly type `"String"`), with
`limit: 10`, and whose item selection is `sys { id }` plus every
scalar-classified field; in the S8 scenario the document contains the
`title_contains`, `slug_contains`, `body_contains` AND `author_contains`
conditions (`author` is a bare `String` field) and does not contain
`tags_contains`. -/
theorem buildSearchQuery_document_shape :
    (∀ (cache : CacheState) (ct searchTerm : String) (schema : ContentTypeSchema),
      isCacheAvailable cache = true →
      getCachedContentTypeSchema cache ct = some schema →
      schema.fields.filter (fun f => isSearchableTextField f.type) ≠ [] →
      buildSearchQuery cache ⟨ct, searchTerm, none⟩ =
        .ok (buildQueryText (replaceFirst schema.contentType "Collection" "")
          (resolveQueryName cache ct schema.contentType)
          (String.intercalate ", "
            ((schema.fields.filter (fun f => isSearchableTextField f.type)).map
              (fun f => "\x7b " ++ f.name ++ "_contains: $searchTerm \x7d")))
          ((schema.fields.filter (fun f => isScalarType f.type)).map
            (fun f => f.name)))) ∧
    (buildSearchQuery scenarioCache ⟨"pageArticle", "hello world", none⟩ =
        .ok scenarioDoc ∧
      containsSub scenarioDoc "query SearchPageArticle($searchTerm: String!)" = true ∧
      containsSub scenarioDoc "pageArticleCollection(where: \x7b OR: [" = true ∧
      containsSub scenarioDoc "\x7b title_contains: $searchTerm \x7d" = true ∧
      containsSub scenarioDoc "\x7b slug_contains: $searchTerm \x7d" = true ∧
      containsSub scenarioDoc "\x7b body_contains: $searchTerm \x7d" = true ∧
      containsSub scenarioDoc "\x7b author_contains: $searchTerm \x7d" = true ∧
      containsSub scenarioDoc "tags_contains" = false ∧
      containsSub scenarioDoc "limit: 10" = true ∧
      containsSub scenarioDoc "sys \x7b id \x7d" = true) := by
  constructor
  · intro cache ct searchTerm schema havail hlook hne
    have hempty : (schema.fields.filter (fun f => isSearchableTextField f.type)).isEmpty =
        false := by
      simpa [List.isEmpty_iff] using hne
    simp [buildSearchQuery, buildSearchQueryCore, havail, hlook, hempty]
  · exact ⟨rfl, rfl, rfl, rfl, rfl, rfl, rfl, rfl, rfl, rfl⟩

/-- Witness for C1's amended theorem: instantiation of the general part
at the S8 scenario cache. -/
theorem buildSearchQuery_document_shape_witness :
    buildSearchQuery scenarioCache ⟨"pageArticle", "hello world", none⟩ =
      .ok (buildQueryText (replaceFirst pageArticleSchema.contentType "Collection" "")
        (resolveQueryName scenarioCache "pageArticle" pageArticleSchema.contentType)
        (String.intercalate ", "
          ((pageArticleSchema.fields.filter (fun f => isSearchableTextField f.type)).map
            (fun f => "\x7b " ++ f.name ++ "_contains: $searchTerm \x7d")))
        ((pageArticleSchema.fields.filter (fun f => isScalarType f.type)).map
          (fun f => f.name))) :=
  buildSearchQuery_document_shape.1 scenarioCache "pageArticle" "hello world"
    pageArticleSchema rfl rfl (by decide)

/-- A remote environment whose discovery succeeds with one collection
field but whose every per-type schema fetch fails. -/
def env3 : Env := ⟨.ok [⟨"fooCollection", none, none⟩], fun _ => .gqlErrors "boom"⟩

/-- C3 counterexample: loading from `env3` into the empty cache reaches
a state with a non-null (and nonempty) content-type list but ZERO cached
schemas — `isAvailable()` is false although the state is not fully
empty, and the state satisfies neither disjunct of the claimed
invariant. -/
theorem cache_invariant_counterexample :
    Reachable (loadContentfulMetadata env3 initialCacheState) ∧
    (loadContentfulMetadata env3 initialCacheState).contentTypes ≠ none ∧
    (loadContentfulMetadata env3 initialCacheState).schemas = [] ∧
    isCacheAvailable (loadContentfulMetadata env3 initialCacheState) = false ∧
    ¬ (((loadContentfulMetadata env3 initialCacheState).contentTypes = none ∧
        (loadContentfulMetadata env3 initialCacheState).schemas = []) ∨
       ((∃ l, (loadContentfulMetadata env3 initialCacheState).contentTypes = some l ∧
          l ≠ []) ∧
        (loadContentfulMetadata env3 initialCacheState).schemas ≠ [])) := by
  have hs3 : loadContentfulMetadata env3 initialCacheState =
      ⟨some [⟨"foo", "Content type for fooCollection", "fooCollection"⟩], [], some ()⟩ := by
    simp [loadContentfulMetadata, loadFold, loadContentTypesFromAPI, env3,
      initialCacheState, loadSchemaAPI_eval, rootFieldIsCollectionField, rootFieldToSummary,
      show endsWithStr "fooCollection" "Collection" = true from rfl,
      show replaceFirst "fooCollection" "Collection" "" = "foo" from rfl]
  rw [hs3]
  refine ⟨?_, by simp, rfl, rfl, ?_⟩
  · exact hs3 ▸ Reachable.load env3 Reachable.init
  · rintro (⟨h1, _⟩ | ⟨_, h2⟩)
    · simp at h1
    · exact h2 rfl

/-- C3 amended: the claimed invariant fails (see the counterexample);
what does hold in every reachable state is the weaker invariant that a
null content-type list implies an empty schemas map (equivalently,
cached schemas imply a non-null, though possibly empty, content-type
list); and `isAvailable()` is false exactly when the content-type list
is null OR no schema is cached — not exactly in the fully-empty state. -/
theorem cache_weak_invariant (s : CacheState) (hs : Reachable s) :
    (s.contentTypes = none → s.schemas = []) ∧
    (isCacheAvailable s = true ↔ (s.contentTypes ≠ none ∧ s.schemas ≠ [])) := by
  constructor
  · induction hs with
    | init => intro _; rfl
    | clear _ _ => intro _; rfl
    | load env hprev ih =>
      intro h
      rename_i s
      cases hd : loadContentTypesFromAPI env with
      | error e =>
        simp only [loadContentfulMetadata, hd] at h ⊢
        exact ih h
      | ok cts => simp [loadContentfulMetadata, hd] at h
  · simp [isCacheAvailable, Option.isSome_iff_ne_none, List.isEmpty_iff]

/-- Witness for C3's amended theorem: instantiation at the initial
state. -/
theorem cache_weak_invariant_witness :
    initialCacheState.schemas = [] :=
  (cache_weak_invariant initialCacheState Reachable.init).1 rfl

/-- The key list of a schemas map. -/
def mapKeys (m : List (String × ContentTypeSchema)) : List String :=
  m.map Prod.fst

theorem mapKeys_insertReplace (m : List (String × ContentTypeSchema)) (k : String)
    (v : ContentTypeSchema) :
    mapKeys (insertReplace m k v) =
      if k ∈ mapKeys m then mapKeys m else mapKeys m ++ [k] := by
  induction m with
  | nil => simp [insertReplace, mapKeys]
  | cons p rest ih =>
    by_cases hp : p.1 = k
    · simp [insertReplace, hp, mapKeys]
    · have hne : ¬ k = p.1 := fun h => hp h.symm
      by_cases hm : k ∈ mapKeys rest
      · simp only [mapKeys] at ih hm
        simp [insertReplace, hp, mapKeys, ih, hm, hne]
      · simp only [mapKeys] at ih hm
        simp [insertReplace, hp, mapKeys, ih, hm, hne]

theorem mem_mapKeys_loadFold (env : Env) (cts : List ContentTypeSummary) :
    ∀ (m : List (String × ContentTypeSchema)) (k : String),
      k ∈ mapKeys m → k ∈ mapKeys (loadFold env cts m) := by
  induction cts with
  | nil => intro m k h; simpa [loadFold] using h
  | cons ct rest ih =>
    intro m k h
    rw [loadFold, List.foldl_cons]
    cases hres : loadContentTypeSchemaFromAPI env ct.name with
    | error e => exact ih m k h
    | ok sch =>
      refine ih _ k ?_
      rw [mapKeys_insertReplace]
      by_cases hmem : sch.contentType ∈ mapKeys m <;> simp [hmem, h]

theorem ok_mem_mapKeys_loadFold (env : Env) (cts : List ContentTypeSummary) :
    ∀ (m : List (String × ContentTypeSchema)) (ct : ContentTypeSummary)
      (sch : ContentTypeSchema), ct ∈ cts →
      loadContentTypeSchemaFromAPI env ct.name = .ok sch →
      sch.contentType ∈ mapKeys (loadFold env cts m) := by
  induction cts with
  | nil => intro m ct sch h; simp at h
  | cons ct0 rest ih =>
    intro m ct sch hmem hok
    rw [loadFold, List.foldl_cons]
    rcases List.mem_cons.mp hmem with heq | htail
    · subst heq
      rw [hok]
      refine mem_mapKeys_loadFold env rest _ _ ?_
      rw [mapKeys_insertReplace]
      by_cases hmem2 : sch.contentType ∈ mapKeys m <;> simp [hmem2]
    · cases hres : loadContentTypeSchemaFromAPI env ct0.name with
      | error e => exact ih m ct sch htail hok
      | ok sch0 => exact ih _ ct sch htail hok

theorem mapKeys_loadFold_stable (env : Env) (cts : List ContentTypeSummary) :
    ∀ (m : List (String × ContentTypeSchema)),
      (∀ ct ∈ cts, ∀ sch, loadContentTypeSchemaFromAPI env ct.name = .ok sch →
        sch.contentType ∈ mapKeys m) →
      mapKeys (loadFold env cts m) = mapKeys m := by
  induction cts with
  | nil => intro m _; simp [loadFold]
  | cons ct rest ih =>
    intro m hsub
    rw [loadFold, List.foldl_cons]
    cases hres : loadContentTypeSchemaFromAPI env ct.name with
    | error e =>
      exact ih m (fun ct2 h2 sch2 hok2 => hsub ct2 (List.mem_cons_of_mem _ h2) sch2 hok2)
    | ok sch =>
      have hk : sch.contentType ∈ mapKeys m :=
        hsub ct (List.mem_cons_self _ _) sch hres
      have hkeys : mapKeys (insertReplace m sch.contentType sch) = mapKeys m := by
        rw [mapKeys_insertReplace, if_pos hk]
      show mapKeys (loadFold env rest (insertReplace m sch.contentType sch)) = mapKeys m
      rw [ih (insertReplace m sch.contentType sch)
        (fun ct2 h2 sch2 hok2 => by
          rw [hkeys]
          exact hsub ct2 (List.mem_cons_of_mem _ h2) sch2 hok2)]
      exact hkeys

/-- C9: for every fixed remote environment, `clear()` followed by two
`load()`s yields the same `contentTypesCount` and `schemasCount` as
`clear()` followed by one `load()` — the second pass rediscovers the
same list and re-inserts the same keys, and `Map.set` on a present key
does not grow the map. -/
theorem load_idempotent_counts (env : Env) (s : CacheState) :
    (getCacheStatus
      (loadContentfulMetadata env (loadContentfulMetadata env (clearCache s)))).contentTypesCount =
      (getCacheStatus (loadContentfulMetadata env (clearCache s))).contentTypesCount ∧
    (getCacheStatus
      (loadContentfulMetadata env (loadContentfulMetadata env (clearCache s)))).schemasCount =
      (getCacheStatus (loadContentfulMetadata env (clearCache s))).schemasCount := by
  cases hd : loadContentTypesFromAPI env with
  | error e => simp [loadContentfulMetadata, hd]
  | ok cts =>
    simp only [loadContentfulMetadata, hd, clearCache, initialCacheState, getCacheStatus]
    refine ⟨by trivial, ?_⟩
    have hlen : ∀ m1 m2 : List (String × ContentTypeSchema),
        mapKeys m1 = mapKeys m2 → m1.length = m2.length := by
      intro m1 m2 h
      have := congrArg List.length h
      simpa [mapKeys] using this
    refine hlen _ _ ?_
    exact mapKeys_loadFold_stable env cts (loadFold env cts [])
      (fun ct h sch hok => ok_mem_mapKeys_loadFold env cts [] ct sch h hok)

theorem smartSearchOne_missing (cache : CacheState)
    (exec : String → Option (List SearchItem)) (limit : Nat) (ct : ContentTypeSummary)
    (h : getCachedContentTypeSchema cache ct.name = none) :
    smartSearchOne cache exec limit ct = (none, []) := by
  simp [smartSearchOne, h]

theorem smartSearchOne_no_text (cache : CacheState)
    (exec : String → Option (List SearchItem)) (limit : Nat) (ct : ContentTypeSummary)
    (sch : ContentTypeSchema)
    (h : getCachedContentTypeSchema cache ct.name = some sch)
    (he : sch.fields.filter (fun f => isSearchableTextField f.type) = []) :
    smartSearchOne cache exec limit ct = (none, []) := by
  simp [smartSearchOne, h, he]

theorem smartSearchOne_calls (cache : CacheState)
    (exec : String → Option (List SearchItem)) (limit : Nat) (ct : ContentTypeSummary)
    (sch : ContentTypeSchema)
    (h : getCachedContentTypeSchema cache ct.name = some sch)
    (hne : sch.fields.filter (fun f => isSearchableTextField f.type) ≠ []) :
    ∃ (r : Option SearchResultEntry) (q : String),
      smartSearchOne cache exec limit ct = (r, [q]) := by
  have hempty : (sch.fields.filter (fun f => isSearchableTextField f.type)).isEmpty =
      false := by simpa [List.isEmpty_iff] using hne
  rw [smartSearchOne, h]
  simp only [hempty, Bool.false_eq_true, if_false]
  set q := smartQueryText ct.name ct.queryName
    (String.intercalate ", "
      ((sch.fields.filter (fun f => isSearchableTextField f.type)).map
        (fun f => "\x7b " ++ f.name ++ "_contains: $searchTerm \x7d"))) limit
    ((sch.fields.filter (fun f => isSearchableTextField f.type)).map
      (fun f => f.name)) with hq
  cases hexec : exec q with
  | none => exact ⟨none, q, rfl⟩
  | some items =>
    cases hitems : items.isEmpty <;> simp [hexec, hitems]

/-- Evaluation of `smartSearch` on an available cache with valid
configuration and no content-type filter. -/
theorem smartSearch_eval (cache : CacheState)
    (exec : String → Option (List SearchItem)) (spaceId accessToken : Option String)
    (args : SmartSearchArgs) (cts : List ContentTypeSummary)
    (havail : isCacheAvailable cache = true) (hsp : jsTruthy spaceId = true)
    (htok : jsTruthy accessToken = true) (hct : cache.contentTypes = some cts)
    (hargs : args.contentTypes = none) :
    smartSearch cache exec spaceId accessToken args =
      ((.ok args.query
        ((cts.map (smartSearchOne cache exec
          (match args.limit with | some n => if n = 0 then 5 else n | none => 5))).map
            Prod.fst).reduceOption
        cts.length
        ((cts.map (smartSearchOne cache exec
          (match args.limit with | some n => if n = 0 then 5 else n | none => 5))).map
            Prod.fst).reduceOption.length),
       ((cts.map (smartSearchOne cache exec
          (match args.limit with | some n => if n = 0 then 5 else n | none => 5))).map
            Prod.snd).flatten) := by
  simp [smartSearch, havail, hsp, htok, hct, hargs]

/-- C2: a target content type whose cached schema has zero searchable
text fields is skipped entirely — no remote execution, no result entry;
and in the two-type scenario with exactly one searchable type, the
remote execution path is invoked exactly once, `results` has at most one
entry, and `totalContentTypesSearched` still counts both types. -/
theorem smartSearch_skips_unsearchable :
    (∀ (cache : CacheState) (exec : String → Option (List SearchItem)) (limit : Nat)
       (ct : ContentTypeSummary) (sch : ContentTypeSchema),
      getCachedContentTypeSchema cache ct.name = some sch →
      sch.fields.filter (fun f => isSearchableTextField f.type) = [] →
      smartSearchOne cache exec limit ct = (none, [])) ∧
    (∀ (cache : CacheState) (exec : String → Option (List SearchItem))
       (spaceId accessToken : Option String) (args : SmartSearchArgs)
       (ct1 ct2 : ContentTypeSummary) (sch1 sch2 : ContentTypeSchema),
      cache.contentTypes = some [ct1, ct2] →
      isCacheAvailable cache = true →
      jsTruthy spaceId = true → jsTruthy accessToken = true →
      args.contentTypes = none →
      getCachedContentTypeSchema cache ct1.name = some sch1 →
      getCachedContentTypeSchema cache ct2.name = some sch2 →
      ((sch1.fields.filter (fun f => isSearchableTextField f.type) = [] ∧
        sch2.fields.filter (fun f => isSearchableTextField f.type) ≠ []) ∨
       (sch1.fields.filter (fun f => isSearchableTextField f.type) ≠ [] ∧
        sch2.fields.filter (fun f => isSearchableTextField f.type) = [])) →
      ∃ (results : List SearchResultEntry) (q : String),
        smartSearch cache exec spaceId accessToken args =
          (.ok args.query results 2 results.length, [q]) ∧
        results.length ≤ 1) := by
  constructor
  · intro cache exec limit ct sch h he
    exact smartSearchOne_no_text cache exec limit ct sch h he
  · intro cache exec spaceId accessToken args ct1 ct2 sch1 sch2 hct havail hsp htok
      hargs hl1 hl2 hdisj
    rw [smartSearch_eval cache exec spaceId accessToken args [ct1, ct2] havail hsp htok
      hct hargs]
    rcases hdisj with ⟨he1, hne2⟩ | ⟨hne1, he2⟩
    · have h1 := smartSearchOne_no_text cache exec
        (match args.limit with | some n => if n = 0 then 5 else n | none => 5)
        ct1 sch1 hl1 he1
      obtain ⟨r, q, hr⟩ := smartSearchOne_calls cache exec
        (match args.limit with | some n => if n = 0 then 5 else n | none => 5)
        ct2 sch2 hl2 hne2
      cases r with
      | none => exact ⟨[], q, by simp [h1, hr, List.reduceOption], by simp⟩
      | some e => exact ⟨[e], q, by simp [h1, hr, List.reduceOption], by simp⟩
    · have h2 := smartSearchOne_no_text cache exec
        (match args.limit with | some n => if n = 0 then 5 else n | none => 5)
        ct2 sch2 hl2 he2
      obtain ⟨r, q, hr⟩ := smartSearchOne_calls cache exec
        (match args.limit with | some n => if n = 0 then 5 else n | none => 5)
        ct1 sch1 hl1 hne1
      cases r with
      | none => exact ⟨[], q, by simp [h2, hr, List.reduceOption], by simp⟩
      | some e => exact ⟨[e], q, by simp [h2, hr, List.reduceOption], by simp⟩

/-- A schema with no searchable text field (its only field is an `Int`). -/
def c2NoTextSchema : ContentTypeSchema := ⟨"NoText", none, [⟨"count", "Field count", "Int"⟩]⟩

/-- A schema with one searchable text field. -/
def c2WithTextSchema : ContentTypeSchema :=
  ⟨"WithText", none, [⟨"title", "Field title", "String"⟩]⟩

/-- Summary of the unsearchable type. -/
def c2TypeA : ContentTypeSummary := ⟨"noText", "Content type for noTextCollection", "noTextCollection"⟩

/-- Summary of the searchable type. -/
def c2TypeB : ContentTypeSummary :=
  ⟨"withText", "Content type for withTextCollection", "withTextCollection"⟩

/-- A cache with two content types of which exactly one has searchable
fields. -/
def c2Cache : CacheState :=
  ⟨some [c2TypeA, c2TypeB],
   [("noText", c2NoTextSchema), ("withText", c2WithTextSchema)], some ()⟩

/-- Witness for C2: concrete two-type scenario — exactly one remote
call, at most one result, both types counted. -/
theorem smartSearch_skips_unsearchable_witness :
    ∃ (results : List SearchResultEntry) (q : String),
      smartSearch c2Cache (fun _ => some []) (some "space") (some "token")
        ⟨"address", none, none⟩ =
        (.ok "address" results 2 results.length, [q]) ∧
      results.length ≤ 1 :=
  smartSearch_skips_unsearchable.2 c2Cache (fun _ => some []) (some "space")
    (some "token") ⟨"address", none, none⟩ c2TypeA c2TypeB c2NoTextSchema c2WithTextSchema
    rfl rfl rfl rfl rfl rfl rfl (Or.inl ⟨by decide, by decide⟩)

/-- The single content-type summary of the C10 scenario: its schema was
cached under the key `"ArticleCollection"` (the schema's own resolved
type name after a Collection-suffix fallback), which differs from the
summary name `"article"`. -/
def c10Summary : ContentTypeSummary :=
  ⟨"article", "Content type for articleCollection", "articleCollection"⟩

/-- The C10 cache: the schemas map is keyed by `"ArticleCollection"`,
not by the summary name `"article"`. -/
def c10Cache : CacheState :=
  ⟨some [c10Summary],
   [("ArticleCollection", ⟨"ArticleCollection", none,
     [⟨"title", "Field title", "String"⟩]⟩)],
   some ()⟩

/-- C10: `smartSearch` looks a target type's schema up only under the
summary's `name`, with no Collection-suffix fallback — a type whose
schema is cached under a different key is silently skipped (no remote
query, no result entry) while still being counted in
`totalContentTypesSearched`: on the concrete mismatched cache the search
returns zero results, one type searched, and an empty call log, for
every execution oracle. -/
theorem smartSearch_key_mismatch_skip :
    (∀ (cache : CacheState) (exec : String → Option (List SearchItem)) (limit : Nat)
       (ct : ContentTypeSummary),
      getCachedContentTypeSchema cache ct.name = none →
      smartSearchOne cache exec limit ct = (none, [])) ∧
    (∀ exec : String → Option (List SearchItem),
      smartSearch c10Cache exec (some "space") (some "token") ⟨"address", none, none⟩ =
        (.ok "address" [] 1 0, [])) := by
  constructor
  · intro cache exec limit ct h
    exact smartSearchOne_missing cache exec limit ct h
  · intro exec
    rw [smartSearch_eval c10Cache exec (some "space") (some "token")
      ⟨"address", none, none⟩ [c10Summary] rfl rfl rfl rfl rfl]
    simp [smartSearchOne_missing c10Cache exec 5 c10Summary rfl]

/-- Witness for C10: the skipped lookup on the mismatched cache, and the
full search response with an empty call log. -/
theorem smartSearch_key_mismatch_skip_witness :
    smartSearchOne c10Cache (fun _ => none) 5 c10Summary = (none, []) ∧
    smartSearch c10Cache (fun _ => none) (some "space") (some "token")
      ⟨"address", none, none⟩ = (.ok "address" [] 1 0, []) :=
  ⟨smartSearch_key_mismatch_skip.1 c10Cache (fun _ => none) 5 c10Summary rfl,
    smartSearch_key_mismatch_skip.2 (fun _ => none)⟩

end ContentfulGraphQL
